import Mathlib

/-!
# MumbleDJ: event handlers of `main.go` and the configuration of `parseconfig.go`

A shallow embedding of the handlers `OnConnect`, `OnDisconnect`, `OnTextMessage`,
`HasPermission`, `OnSongFinished` and of `loadConfiguration`.

* Go strings are byte sequences (`GoString`), so `s[0]` and `s[1:]` are byte operations.
* Code that lives outside `main.go` / `parseconfig.go` (the `Song` and `SongQueue` types,
  `parseCommand`, and the gumble, gumble_ffmpeg, gcfg, os/user and fmt libraries) is taken
  as a parameter: `Types` collects the foreign types, `Collaborators` the foreign operations.
  Foreign operations act on an explicit `World` and are assumed to return.
* Every handler returns a `Result`: how it ended (`returned` or `panicked`), the new value of
  the global `dj`, the new world, and the trace of foreign calls in program order.
-/

namespace MumbleDJ

/-! ## Go values -/

/-- Go `byte`. -/
abbrev Byte := Fin 256

/-- Go `string`: a sequence of bytes; `==` is byte-wise equality. -/
abbrev GoString := List Byte

/-- Bytes of an ASCII string literal. -/
def lit (s : String) : GoString := s.toList.map (fun ch => Fin.ofNat ch.toNat)

/-- Go `error` value (non-nil), identified by its message. -/
structure GoError where
  msg : GoString
deriving DecidableEq, Repr

/-- Go `errors.New`. -/
def errorsNew (msg : GoString) : GoError := ⟨msg⟩

/-- The value carried by a Go panic: the argument of `panic(err)`, or the run-time error
raised by an index or slice expression that is out of range. -/
inductive PanicValue where
  | error (err : GoError)
  | indexOutOfRange (index length : Nat)
  | sliceOutOfRange (low length : Nat)
deriving DecidableEq, Repr

/-- Go index expression `s[i]` on a string: the byte at `i`, or a run-time panic. -/
def GoString.index (s : GoString) (i : Nat) : Except PanicValue Byte :=
  match s.get? i with
  | some b => .ok b
  | none => .error (.indexOutOfRange i s.length)

/-- Go slice expression `s[low:]` on a string: panics when `low > len(s)`. -/
def GoString.sliceFrom (s : GoString) (low : Nat) : Except PanicValue GoString :=
  if low ≤ s.length then .ok (s.drop low) else .error (.sliceOutOfRange low s.length)

/-! ## parseconfig.go -/

/-- Section `General` of `DjConfig`. -/
structure DjConfigGeneral (float32 : Type) where
  CommandPrefix : GoString
  SkipRatio : float32
  PlaylistSkipRatio : float32
  DefaultComment : GoString
  MaxSongDuration : Int
  MaxSongPerPlaylist : Int
  AutomaticShuffleOn : Bool

/-- Section `Cache` of `DjConfig`. -/
structure DjConfigCache (float64 : Type) where
  Enabled : Bool
  MaximumSize : Int
  ExpireTime : float64

/-- Section `Volume` of `DjConfig`. -/
structure DjConfigVolume (float32 : Type) where
  DefaultVolume : float32
  LowestVolume : float32
  HighestVolume : float32

/-- Section `Aliases` of `DjConfig`. -/
structure DjConfigAliases where
  AddAlias : GoString
  SkipAlias : GoString
  SkipPlaylistAlias : GoString
  AdminSkipAlias : GoString
  AdminSkipPlaylistAlias : GoString
  HelpAlias : GoString
  VolumeAlias : GoString
  MoveAlias : GoString
  ReloadAlias : GoString
  ResetAlias : GoString
  NumSongsAlias : GoString
  NextSongAlias : GoString
  CurrentSongAlias : GoString
  SetCommentAlias : GoString
  NumCachedAlias : GoString
  CacheSizeAlias : GoString
  KillAlias : GoString
  ShuffleAlias : GoString
  ShuffleOnAlias : GoString
  ShuffleOffAlias : GoString
  ElectricAlias : GoString
  CocoAlias : GoString
  BlackAlias : GoString
  InspireAlias : GoString

/-- Section `Permissions` of `DjConfig`. -/
structure DjConfigPermissions where
  AdminsEnabled : Bool
  Admins : List GoString
  AdminAdd : Bool
  AdminAddPlaylists : Bool
  AdminSkip : Bool
  AdminHelp : Bool
  AdminVolume : Bool
  AdminMove : Bool
  AdminReload : Bool
  AdminReset : Bool
  AdminNumSongs : Bool
  AdminNextSong : Bool
  AdminCurrentSong : Bool
  AdminSetComment : Bool
  AdminNumCached : Bool
  AdminCacheSize : Bool
  AdminKill : Bool
  AdminShuffle : Bool
  AdminShuffleToggle : Bool
  AdminElectric : Bool
  AdminCoco : Bool
  AdminBlack : Bool
  AdminInspire : Bool

/-- The struct `DjConfig`, the parsed form of `mumbledj.gcfg`. The two Go floating-point
types are parameters: the code stores and passes these values and never computes with them. -/
structure DjConfig (float32 float64 : Type) where
  General : DjConfigGeneral float32
  Cache : DjConfigCache float64
  Volume : DjConfigVolume float32
  Aliases : DjConfigAliases
  Permissions : DjConfigPermissions

/-! ## main.go: state -/

/-- Types declared outside `main.go` and `parseconfig.go`. -/
structure Types where
  float32 : Type
  float64 : Type
  /-- Referent of `*Song` (song.go). -/
  Song : Type
  /-- Referent of `*SongQueue` (songqueue.go). -/
  SongQueue : Type
  /-- Referent of `*gumble.User`. -/
  User : Type
  /-- Referent of `*gumble.Client`. -/
  Client : Type
  /-- Referent of `*gumble.Channel`. -/
  Channel : Type
  /-- Referent of `*gumble_ffmpeg.Stream`. -/
  Stream : Type
  /-- Struct `gumble.Config`. -/
  Config : Type
  /-- A `chan bool`. -/
  ChanBool : Type
  /-- Referent of `*gumble.ConnectEvent`. -/
  ConnectEvent : Type
  /-- Referent of `*gumble.DisconnectEvent`. -/
  DisconnectEvent : Type
  /-- Everything the foreign code reads and writes: files, network, the audio engine. -/
  World : Type

/-- The function values the code stores in `Stream.Done`. -/
inductive Callback where
  | OnSongFinished
deriving DecidableEq, Repr

/-- The audio stream as `dj` sees it: the pointer returned by `gumble_ffmpeg.New` and the
value written to its `Done` field. -/
structure AudioStream (T : Types) where
  handle : T.Stream
  Done : Option Callback

/-- The struct `mumbledj`; the single global `dj` is passed explicitly.
A nil `*Song` or `*gumble_ffmpeg.Stream` is `none`. -/
structure mumbledj (T : Types) where
  config : T.Config
  client : T.Client
  keepAlive : T.ChanBool
  defaultChannel : GoString
  conf : DjConfig T.float32 T.float64
  queue : T.SongQueue
  currentSong : Option T.Song
  audioStream : Option (AudioStream T)
  homeDir : GoString

/-- The part of `gumble.TextMessageEvent` the handler reads. -/
structure TextMessageEvent (T : Types) where
  Sender : T.User
  Message : GoString

/-- Operations defined outside `main.go` and `parseconfig.go`. A Go `error` result is
`none` for nil. -/
structure Collaborators (T : Types) where
  /-- Method `(*Song).Delete() error`; the receiver may be nil. -/
  Delete : Option T.Song → T.World → Option GoError × T.World
  /-- Method `(*Song).Download() error`. -/
  Download : T.Song → T.World → Option GoError × T.World
  /-- Method `(*Song).Play()`. -/
  Play : T.Song → T.World → T.World
  /-- Method `(*SongQueue).Len() int`. -/
  Len : T.SongQueue → Int
  /-- Method `(*SongQueue).NextSong() *Song`, with the queue it leaves behind. -/
  NextSong : T.SongQueue → Option T.Song × T.SongQueue
  /-- Function `parseCommand(user, username, command)` of commands.go. -/
  parseCommand : T.User → GoString → GoString → mumbledj T → T.World → mumbledj T × T.World
  /-- Method `(*gumble.User).Name()`. -/
  Name : T.User → GoString
  /-- Expression `client.Channels().Find(name)`. -/
  Find : T.Client → GoString → T.World → Option T.Channel
  /-- Expression `client.Self().Move(channel)`. -/
  Move : T.Client → T.Channel → T.World → T.World
  /-- Function `user.Current()`, reduced to the `HomeDir` of the user it returns. -/
  userCurrent : T.World → Except GoError GoString
  /-- Function `gcfg.ReadFileInto(&conf, path)`: the error and the configuration as written. -/
  ReadFileInto : DjConfig T.float32 T.float64 → GoString → T.World →
    Option GoError × DjConfig T.float32 T.float64
  /-- Function `gumble_ffmpeg.New(client)`. -/
  New : T.Client → T.World → Except GoError T.Stream × T.World
  /-- Method `(*gumble_ffmpeg.Stream).SetVolume(volume)`. -/
  SetVolume : T.Stream → T.float32 → T.World → T.World

/-- Calls that leave `main.go` / `parseconfig.go`, recorded in program order. -/
inductive Event (T : Types) where
  | ChannelsFind (name : GoString)
  | SelfMove (channel : T.Channel)
  | Stdout (text : GoString)
  | UserCurrent
  | ReadFileInto (path : GoString)
  | FfmpegNew
  | SetVolume (stream : T.Stream) (volume : T.float32)
  | ChanSend (ch : T.ChanBool) (value : Bool)
  | ParseCommand (sender : T.User) (name : GoString) (command : GoString)
  | Delete (song : Option T.Song)
  | Len
  | NextSong
  | Download (song : T.Song)
  | Play (song : T.Song)

/-- How a handler ends. -/
inductive Outcome where
  | returned
  | panicked (value : PanicValue)
deriving DecidableEq, Repr

/-- What a handler leaves behind. -/
structure Result (T : Types) where
  outcome : Outcome
  dj : mumbledj T
  world : T.World
  trace : List (Event T)

/-! ## main.go and parseconfig.go: functions -/

/-- The function `loadConfiguration` of parseconfig.go, on the global `dj`. -/
def loadConfiguration {T : Types} (c : Collaborators T) (dj : mumbledj T) (w : T.World) :
    Option GoError × mumbledj T × List (Event T) :=
  let path := dj.homeDir ++ lit "/.mumbledj/config/mumbledj.gcfg"
  match c.ReadFileInto dj.conf path w with
  | (none, conf) => (none, { dj with conf := conf }, [.ReadFileInto path])
  | (some _, conf) =>
    (some (errorsNew (lit "Configuration load failed.")), { dj with conf := conf },
      [.ReadFileInto path, .Stdout (path ++ lit "\n")])

/-- First block of `OnConnect`: move into the default channel if it exists. -/
def OnConnect.moveToDefaultChannel {T : Types} (c : Collaborators T) (dj : mumbledj T)
    (w : T.World) : T.World × List (Event T) :=
  match c.Find dj.client dj.defaultChannel w with
  | some ch =>
    (c.Move dj.client ch w,
      [.ChannelsFind dj.defaultChannel, .ChannelsFind dj.defaultChannel, .SelfMove ch])
  | none =>
    (w, [.ChannelsFind dj.defaultChannel, .Stdout (lit
      "Channel doesn't exist or one was not provided, staying in root channel...\n")])

/-- Second block of `OnConnect`: store the home directory of the current user. -/
def OnConnect.storeHomeDir {T : Types} (c : Collaborators T) (dj : mumbledj T)
    (w : T.World) : mumbledj T :=
  match c.userCurrent w with
  | .ok homeDir => { dj with homeDir := homeDir }
  | .error _ => dj

/-- Last block of `OnConnect`: create the audio stream, set `Done` and the volume; `t` is
the trace so far. -/
def OnConnect.setUpAudioStream {T : Types} (c : Collaborators T) (dj : mumbledj T)
    (w : T.World) (t : List (Event T)) : Result T :=
  match c.New dj.client w with
  | (.ok audioStream, w1) =>
    let dj1 := { dj with audioStream := some ⟨audioStream, some .OnSongFinished⟩ }
    ⟨.returned, dj1, c.SetVolume audioStream dj1.conf.Volume.DefaultVolume w1,
      t ++ [.FfmpegNew, .SetVolume audioStream dj1.conf.Volume.DefaultVolume]⟩
  | (.error err, w1) => ⟨.panicked (.error err), dj, w1, t ++ [.FfmpegNew]⟩

/-- The handler `OnConnect`. -/
def OnConnect {T : Types} (c : Collaborators T) (dj : mumbledj T) (_e : T.ConnectEvent)
    (w : T.World) : Result T :=
  let r1 := OnConnect.moveToDefaultChannel c dj w
  let dj1 := OnConnect.storeHomeDir c dj r1.1
  match loadConfiguration c dj1 r1.1 with
  | (none, dj2, t3) =>
    OnConnect.setUpAudioStream c dj2 r1.1
      (r1.2 ++ [.UserCurrent] ++ t3 ++ [.Stdout (lit "Configuration successfully loaded!\n")])
  | (some err, dj2, t3) => ⟨.panicked (.error err), dj2, r1.1, r1.2 ++ [.UserCurrent] ++ t3⟩

/-- The handler `OnDisconnect`: sends `true` on `dj.keepAlive`. -/
def OnDisconnect {T : Types} (_c : Collaborators T) (dj : mumbledj T) (_e : T.DisconnectEvent)
    (w : T.World) : Result T :=
  ⟨.returned, dj, w, [.ChanSend dj.keepAlive true]⟩

/-- The handler `OnTextMessage`. -/
def OnTextMessage {T : Types} (c : Collaborators T) (dj : mumbledj T) (e : TextMessageEvent T)
    (w : T.World) : Result T :=
  match e.Message.index 0 with
  | .error p => ⟨.panicked p, dj, w, []⟩
  | .ok m0 =>
    match dj.conf.General.CommandPrefix.index 0 with
    | .error p => ⟨.panicked p, dj, w, []⟩
    | .ok p0 =>
      if m0 = p0 then
        match e.Message.sliceFrom 1 with
        | .error p => ⟨.panicked p, dj, w, []⟩
        | .ok command =>
          let r := c.parseCommand e.Sender (c.Name e.Sender) command dj w
          ⟨.returned, r.1, r.2, [.ParseCommand e.Sender (c.Name e.Sender) command]⟩
      else ⟨.returned, dj, w, []⟩

/-- The loop of `HasPermission` over `dj.conf.Permissions.Admins`. -/
def HasPermission.range (username : GoString) : List GoString → Bool
  | [] => false
  | adminName :: rest => if username = adminName then true else HasPermission.range username rest

/-- The method `HasPermission`. -/
def HasPermission {T : Types} (dj : mumbledj T) (username : GoString) (command : Bool) : Bool :=
  if dj.conf.Permissions.AdminsEnabled && command then
    HasPermission.range username dj.conf.Permissions.Admins
  else
    true

/-- The handler `OnSongFinished`. -/
def OnSongFinished {T : Types} (c : Collaborators T) (dj : mumbledj T) (w : T.World) :
    Result T :=
  match c.Delete dj.currentSong w with
  | (none, w1) =>
    if c.Len dj.queue ≠ 0 then
      match c.NextSong dj.queue with
      | (next, queue) =>
        let dj1 := { dj with queue := queue, currentSong := next }
        match next with
        | some s =>
          match c.Download s w1 with
          | (none, w2) =>
            ⟨.returned, dj1, c.Play s w2,
              [.Delete dj.currentSong, .Len, .NextSong, .Download s, .Play s]⟩
          | (some err, w2) =>
            ⟨.panicked (.error err), dj1, w2,
              [.Delete dj.currentSong, .Len, .NextSong, .Download s]⟩
        | none => ⟨.returned, dj1, w1, [.Delete dj.currentSong, .Len, .NextSong]⟩
    else ⟨.returned, dj, w1, [.Delete dj.currentSong, .Len]⟩
  | (some err, w1) => ⟨.panicked (.error err), dj, w1, [.Delete dj.currentSong]⟩

/-! ## Reading a trace -/

/-- Whether an event is a call of `parseCommand`. -/
def Event.isParseCommand {T : Types} : Event T → Bool
  | .ParseCommand _ _ _ => true
  | _ => false

/-- Whether a handler called `parseCommand`. -/
def callsParseCommand {T : Types} (t : List (Event T)) : Bool := t.any Event.isParseCommand

/-- Whether an event is a call of `(*Song).Delete`. -/
def Event.isDelete {T : Types} : Event T → Bool
  | .Delete _ => true
  | _ => false

/-- The volumes passed to `SetVolume`, in call order. -/
def appliedVolumes {T : Types} : List (Event T) → List T.float32
  | [] => []
  | .SetVolume _ v :: t => v :: appliedVolumes t
  | _ :: t => appliedVolumes t

/-! ## A concrete instance

Songs, users, channels and streams are numbered; the queue is a list of songs; the world is
the list of songs that have a file on disk. `Delete` fails when the file is missing,
`Download` fails for odd-numbered songs, the configuration file sets the three volumes. -/

/-- Concrete foreign types. -/
@[reducible] def demoTypes : Types where
  float32 := ℚ
  float64 := ℚ
  Song := Nat
  SongQueue := List Nat
  User := Nat
  Client := Unit
  Channel := Nat
  Stream := Nat
  Config := Unit
  ChanBool := Unit
  ConnectEvent := Unit
  DisconnectEvent := Unit
  World := List Nat

/-- Concrete foreign operations. -/
def demo : Collaborators demoTypes where
  Delete := fun song w =>
    match song with
    | none => (some (errorsNew (lit "no song")), w)
    | some s =>
      if s ∈ w then (none, w.erase s) else (some (errorsNew (lit "no such file")), w)
  Download := fun s w =>
    if s % 2 = 0 then (none, s :: w) else (some (errorsNew (lit "download failed")), w)
  Play := fun _ w => w
  Len := fun q => q.length
  NextSong := fun q =>
    match q with
    | [] => (none, [])
    | s :: rest => (some s, rest)
  parseCommand := fun _ _ _ dj w => (dj, w)
  Name := fun _ => lit "listener"
  Find := fun _ name _ => if name = lit "Music" then some 1 else none
  Move := fun _ _ w => w
  userCurrent := fun _ => .ok (lit "/home/dj")
  ReadFileInto := fun conf _ _ => (none, { conf with Volume := ⟨2, 0, 1⟩ })
  New := fun _ w => (.ok 5, w)
  SetVolume := fun _ _ w => w

/-- A configuration with command prefix `!`, admins `alice` and `bob`, volumes 2 in [0, 1]. -/
def demoConf : DjConfig ℚ ℚ where
  General := ⟨lit "!", 1, 1, [], 0, 0, false⟩
  Cache := ⟨false, 0, 0⟩
  Volume := ⟨2, 0, 1⟩
  Aliases := ⟨[], [], [], [], [], [], [], [], [], [], [], [], [], [], [], [], [], [], [], [],
    [], [], [], []⟩
  Permissions := ⟨true, [lit "alice", lit "bob"], true, true, true, true, true, true, true, true,
    true, true, true, true, true, true, true, true, true, true, true, true, true⟩

/-- The bot holding `currentSong` and `queue`, configured by `demoConf`. -/
def demoDj (currentSong : Option Nat) (queue : List Nat) : mumbledj demoTypes where
  config := ()
  client := ()
  keepAlive := ()
  defaultChannel := lit "Music"
  conf := demoConf
  queue := queue
  currentSong := currentSong
  audioStream := none
  homeDir := []

/-- The bot `demoDj` with another command prefix. -/
def demoDjPrefix (commandPrefix : GoString) : mumbledj demoTypes :=
  { demoDj none [] with
    conf := { demoConf with General := { demoConf.General with CommandPrefix := commandPrefix } } }

/-! ## HasPermission -/

theorem HasPermission.range_eq_true_iff (username : GoString) (admins : List GoString) :
    HasPermission.range username admins = true ↔ ∃ adminName ∈ admins, username = adminName := by
  induction admins with
  | nil => simp [HasPermission.range]
  | cons a rest ih =>
    by_cases h : username = a
    · simp [HasPermission.range, h]
    · simp [HasPermission.range, h, ih]

/-- C4: `HasPermission dj username command` is true exactly when `AdminsEnabled` is false, or
the command flag is false, or `username` equals (byte for byte) an entry of `Admins`; with
`AdminsEnabled` and the flag true and `Admins` empty it is false for every username. -/
theorem HasPermission_iff {T : Types} (dj : mumbledj T) (username : GoString) (command : Bool) :
    (HasPermission dj username command = true ↔
      (dj.conf.Permissions.AdminsEnabled = false ∨ command = false ∨
        ∃ adminName ∈ dj.conf.Permissions.Admins, username = adminName)) ∧
    HasPermission
      { dj with conf := { dj.conf with Permissions :=
          { dj.conf.Permissions with AdminsEnabled := true, Admins := [] } } }
      username true = false := by
  constructor
  · unfold HasPermission
    cases hA : dj.conf.Permissions.AdminsEnabled <;> cases command <;>
      simp [HasPermission.range_eq_true_iff]
  · simp [HasPermission, HasPermission.range]

/-! ## OnSongFinished -/

/-- C1: when deleting the finished song succeeds, the queue is non-empty, `NextSong` returns
a song `s` and `s.Download()` succeeds, `OnSongFinished` returns; its foreign calls are, in
order, `Delete`, `Len`, one `NextSong`, `Download` on `s`, one `Play` on `s`; `currentSong`
is `s` and the queue is the one `NextSong` left. -/
theorem OnSongFinished_success {T : Types} (c : Collaborators T) (dj : mumbledj T)
    (w w1 w2 : T.World) (s : T.Song) (q : T.SongQueue)
    (hdel : c.Delete dj.currentSong w = (none, w1))
    (hlen : c.Len dj.queue ≠ 0)
    (hnext : c.NextSong dj.queue = (some s, q))
    (hdl : c.Download s w1 = (none, w2)) :
    OnSongFinished c dj w =
      ⟨.returned, { dj with queue := q, currentSong := some s }, c.Play s w2,
        [.Delete dj.currentSong, .Len, .NextSong, .Download s, .Play s]⟩ := by
  simp [OnSongFinished, hdel, hlen, hnext, hdl]

/-- Witness of C1: song 2 finished, songs 4 and 6 queued, the file of song 2 on disk. -/
theorem OnSongFinished_success_witness :
    OnSongFinished demo (demoDj (some 2) [4, 6]) [2] =
      ⟨.returned, demoDj (some 4) [6], [4],
        [.Delete (some 2), .Len, .NextSong, .Download 4, .Play 4]⟩ :=
  OnSongFinished_success demo (demoDj (some 2) [4, 6]) [2] [] [4] 4 [6] rfl (by decide) rfl rfl

/-- C2, counterexample: song 2 finished, songs 3 and 4 queued, the download of song 3 fails.
`OnSongFinished` panics with the download error right after `Download` on song 3; song 4
stays queued and is never fetched, although its download would succeed. -/
theorem OnSongFinished_download_failure_aborts :
    (OnSongFinished demo (demoDj (some 2) [3, 4]) [2]).outcome =
        .panicked (.error (errorsNew (lit "download failed"))) ∧
      (OnSongFinished demo (demoDj (some 2) [3, 4]) [2]).trace =
        [.Delete (some 2), .Len, .NextSong, .Download 3] ∧
      (OnSongFinished demo (demoDj (some 2) [3, 4]) [2]).dj.queue = [4] ∧
      (demo.Download 4 (OnSongFinished demo (demoDj (some 2) [3, 4]) [2]).world).1 = none :=
  ⟨rfl, rfl, rfl, rfl⟩

/-- C2, amended: when deleting the finished song succeeds, the queue is non-empty, `NextSong`
returns a song `s` and `s.Download()` fails with `err`, `OnSongFinished` panics with `err`.
It has made one `NextSong` call and one `Download` call and no `Play` call; `s` is
`currentSong` and the rest of the queue is left as `NextSong` left it. -/
theorem OnSongFinished_download_failure {T : Types} (c : Collaborators T) (dj : mumbledj T)
    (w w1 w2 : T.World) (s : T.Song) (q : T.SongQueue) (err : GoError)
    (hdel : c.Delete dj.currentSong w = (none, w1))
    (hlen : c.Len dj.queue ≠ 0)
    (hnext : c.NextSong dj.queue = (some s, q))
    (hdl : c.Download s w1 = (some err, w2)) :
    OnSongFinished c dj w =
      ⟨.panicked (.error err), { dj with queue := q, currentSong := some s }, w2,
        [.Delete dj.currentSong, .Len, .NextSong, .Download s]⟩ := by
  simp [OnSongFinished, hdel, hlen, hnext, hdl]

/-- Witness of C2, amended: song 2 finished, songs 3 and 4 queued, download of 3 fails. -/
theorem OnSongFinished_download_failure_witness :
    OnSongFinished demo (demoDj (some 2) [3, 4]) [2] =
      ⟨.panicked (.error (errorsNew (lit "download failed"))), demoDj (some 3) [4], [],
        [.Delete (some 2), .Len, .NextSong, .Download 3]⟩ :=
  OnSongFinished_download_failure demo (demoDj (some 2) [3, 4]) [2] [] [] 3 [4]
    (errorsNew (lit "download failed")) rfl (by decide) rfl rfl

/-- C3, counterexample: song 2 finished but its file is already gone, song 4 queued.
`Delete` returns an error and `OnSongFinished` panics with it; song 4 is not dequeued and
`currentSong` is still song 2. -/
theorem OnSongFinished_delete_failure_aborts :
    (OnSongFinished demo (demoDj (some 2) [4]) []).outcome =
        .panicked (.error (errorsNew (lit "no such file"))) ∧
      (OnSongFinished demo (demoDj (some 2) [4]) []).trace = [.Delete (some 2)] ∧
      (OnSongFinished demo (demoDj (some 2) [4]) []).dj.queue = [4] ∧
      (OnSongFinished demo (demoDj (some 2) [4]) []).dj.currentSong = some 2 :=
  ⟨rfl, rfl, rfl, rfl⟩

/-- C3, amended: when deleting the finished song returns the error `err`, `OnSongFinished`
panics with `err`; `Delete` is its only foreign call, and `dj` (queue and `currentSong`
included) is unchanged. -/
theorem OnSongFinished_delete_failure {T : Types} (c : Collaborators T) (dj : mumbledj T)
    (w w1 : T.World) (err : GoError)
    (hdel : c.Delete dj.currentSong w = (some err, w1)) :
    OnSongFinished c dj w = ⟨.panicked (.error err), dj, w1, [.Delete dj.currentSong]⟩ := by
  simp [OnSongFinished, hdel]

/-- Witness of C3, amended: song 2 finished, its file already gone, song 4 queued. -/
theorem OnSongFinished_delete_failure_witness :
    OnSongFinished demo (demoDj (some 2) [4]) [] =
      ⟨.panicked (.error (errorsNew (lit "no such file"))), demoDj (some 2) [4], [],
        [.Delete (some 2)]⟩ :=
  OnSongFinished_delete_failure demo (demoDj (some 2) [4]) [] []
    (errorsNew (lit "no such file")) rfl

/-- C9: when deleting the finished song succeeds and `Len` is 0, `OnSongFinished` returns
after the calls `Delete` and `Len` only (no `NextSong`, `Download` or `Play`), and `dj` is
unchanged: the queue is the same empty queue and `currentSong` still is the deleted song. -/
theorem OnSongFinished_empty_queue {T : Types} (c : Collaborators T) (dj : mumbledj T)
    (w w1 : T.World)
    (hdel : c.Delete dj.currentSong w = (none, w1))
    (hlen : c.Len dj.queue = 0) :
    OnSongFinished c dj w = ⟨.returned, dj, w1, [.Delete dj.currentSong, .Len]⟩ ∧
      (OnSongFinished c dj w).dj.currentSong = dj.currentSong ∧
      c.Len (OnSongFinished c dj w).dj.queue = 0 := by
  simp [OnSongFinished, hdel, hlen]

/-- Witness of C9: song 2 finished, nothing queued. -/
theorem OnSongFinished_empty_queue_witness :
    OnSongFinished demo (demoDj (some 2) []) [2] =
        ⟨.returned, demoDj (some 2) [], [], [.Delete (some 2), .Len]⟩ ∧
      (OnSongFinished demo (demoDj (some 2) []) [2]).dj.currentSong = some 2 ∧
      demo.Len (OnSongFinished demo (demoDj (some 2) []) [2]).dj.queue = 0 :=
  OnSongFinished_empty_queue demo (demoDj (some 2) []) [2] [] rfl rfl

/-! ## OnDisconnect -/

/-- C5, counterexample: song 2 is the current song, its file is on disk and song 4 is queued.
After `OnDisconnect` the current song is still song 2, its file is still on disk, and no
`Delete` call was made: the only foreign effect is the send on `keepAlive`. -/
theorem OnDisconnect_keeps_currentSong :
    (OnDisconnect demo (demoDj (some 2) [4]) () [2]).dj.currentSong = some 2 ∧
      (OnDisconnect demo (demoDj (some 2) [4]) () [2]).world = [2] ∧
      (OnDisconnect demo (demoDj (some 2) [4]) () [2]).trace.any Event.isDelete = false ∧
      (OnDisconnect demo (demoDj (some 2) [4]) () [2]).trace = [.ChanSend () true] :=
  ⟨rfl, rfl, rfl, rfl⟩

/-- C5, amended: in every state `OnDisconnect` returns after sending `true` on `keepAlive`
and does nothing else: `dj` (so `currentSong` and the queue) and the world are unchanged,
and no `Delete` call is made. -/
theorem OnDisconnect_only_signals {T : Types} (c : Collaborators T) (dj : mumbledj T)
    (e : T.DisconnectEvent) (w : T.World) :
    (OnDisconnect c dj e w).outcome = .returned ∧
      (OnDisconnect c dj e w).trace = [.ChanSend dj.keepAlive true] ∧
      (OnDisconnect c dj e w).dj = dj ∧
      (OnDisconnect c dj e w).world = w ∧
      (OnDisconnect c dj e w).trace.any Event.isDelete = false :=
  ⟨rfl, rfl, rfl, rfl, rfl⟩

/-! ## OnTextMessage -/

theorem GoString.index_zero_cons (b : Byte) (s : GoString) :
    GoString.index (b :: s) 0 = .ok b := rfl

theorem GoString.index_zero_nil : GoString.index [] 0 = .error (.indexOutOfRange 0 0) := rfl

theorem GoString.sliceFrom_one_cons (b : Byte) (s : GoString) :
    GoString.sliceFrom (b :: s) 1 = .ok s := by
  simp [GoString.sliceFrom]

/-- The handler on a non-empty message and a non-empty command prefix. -/
theorem OnTextMessage_cons {T : Types} (c : Collaborators T) (dj : mumbledj T)
    (sender : T.User) (m0 p0 : Byte) (ms ps : GoString) (w : T.World)
    (hp : dj.conf.General.CommandPrefix = p0 :: ps) :
    OnTextMessage c dj ⟨sender, m0 :: ms⟩ w =
      if m0 = p0 then
        ⟨.returned, (c.parseCommand sender (c.Name sender) ms dj w).1,
          (c.parseCommand sender (c.Name sender) ms dj w).2,
          [.ParseCommand sender (c.Name sender) ms]⟩
      else ⟨.returned, dj, w, []⟩ := by
  simp only [OnTextMessage, hp, GoString.index_zero_cons, GoString.sliceFrom_one_cons]

/-- The handler on the empty message, whatever the configuration. -/
theorem OnTextMessage_nil {T : Types} (c : Collaborators T) (dj : mumbledj T)
    (sender : T.User) (w : T.World) :
    OnTextMessage c dj ⟨sender, []⟩ w = ⟨.panicked (.indexOutOfRange 0 0), dj, w, []⟩ := by
  simp only [OnTextMessage, GoString.index_zero_nil]

/-- C7, counterexample: with `CommandPrefix = "!!"` the message `"!a"`, which does not begin
with `"!!"`, is dispatched to `parseCommand` (with command text `"a"`); and for the message
`"!!a"`, which does begin with `"!!"`, the command text passed is `"!a"`, not `"a"`. -/
theorem OnTextMessage_long_prefix_first_byte_only :
    (OnTextMessage demo (demoDjPrefix (lit "!!")) ⟨7, lit "!a"⟩ []).trace =
        [.ParseCommand 7 (lit "listener") (lit "a")] ∧
      ¬ (lit "!!" <+: lit "!a") ∧
      (OnTextMessage demo (demoDjPrefix (lit "!!")) ⟨7, lit "!!a"⟩ []).trace =
        [.ParseCommand 7 (lit "listener") (lit "!a")] ∧
      lit "!!" <+: lit "!!a" ∧
      (lit "!!a").drop (lit "!!").length = lit "a" :=
  ⟨rfl, by decide, rfl, by decide, by decide⟩

/-- C7, amended: for every non-empty message and every non-empty `CommandPrefix`,
`OnTextMessage` returns, and it calls `parseCommand` exactly when the first byte of the
message equals the first byte of `CommandPrefix`; the call is `parseCommand(Sender,
Sender.Name(), message without its first byte)`. When `CommandPrefix` is one byte long this
is: exactly when the message begins with `CommandPrefix`, with that prefix removed. -/
theorem OnTextMessage_dispatch {T : Types} (c : Collaborators T) (dj : mumbledj T)
    (e : TextMessageEvent T) (w : T.World)
    (hm : e.Message ≠ []) (hp : dj.conf.General.CommandPrefix ≠ []) :
    (OnTextMessage c dj e w).outcome = .returned ∧
      (callsParseCommand (OnTextMessage c dj e w).trace = true ↔
        e.Message.head? = dj.conf.General.CommandPrefix.head?) ∧
      (OnTextMessage c dj e w).trace =
        (if e.Message.head? = dj.conf.General.CommandPrefix.head? then
          [.ParseCommand e.Sender (c.Name e.Sender) e.Message.tail]
        else []) ∧
      (dj.conf.General.CommandPrefix.length = 1 →
        (callsParseCommand (OnTextMessage c dj e w).trace = true ↔
          dj.conf.General.CommandPrefix <+: e.Message) ∧
        e.Message.tail = e.Message.drop dj.conf.General.CommandPrefix.length) := by
  obtain ⟨sender, msg⟩ := e
  cases msg with
  | nil => exact absurd rfl hm
  | cons m0 ms =>
    cases hpre : dj.conf.General.CommandPrefix with
    | nil => exact absurd hpre hp
    | cons p0 ps =>
      rw [OnTextMessage_cons c dj sender m0 p0 ms ps w hpre]
      by_cases h : m0 = p0
      · subst h
        refine ⟨by simp, by simp [callsParseCommand, Event.isParseCommand], by simp, ?_⟩
        intro hlen
        have hps : ps = [] := by
          cases ps with
          | nil => rfl
          | cons a t => simp at hlen
        subst hps
        simp [callsParseCommand, Event.isParseCommand]
      · refine ⟨by simp [h], by simp [h, callsParseCommand], by simp [h], ?_⟩
        intro hlen
        have hps : ps = [] := by
          cases ps with
          | nil => rfl
          | cons a t => simp at hlen
        subst hps
        simp [h, callsParseCommand, List.cons_prefix_cons]
        exact fun hh => h hh.symm

/-- Witness of C7, amended: prefix `!`, message `!add`. -/
theorem OnTextMessage_dispatch_witness :
    (OnTextMessage demo (demoDjPrefix (lit "!")) ⟨7, lit "!add"⟩ []).trace =
      [.ParseCommand 7 (lit "listener") (lit "add")] :=
  (OnTextMessage_dispatch demo (demoDjPrefix (lit "!")) ⟨7, lit "!add"⟩ []
    (by decide) (by decide)).2.2.1

/-- C8, failing input: the empty message, with `CommandPrefix = "!"`. The empty message does
not begin with `"!"`, and `OnTextMessage` panics with an index-out-of-range run-time error
instead of ignoring it. -/
theorem OnTextMessage_empty_message_panics :
    (OnTextMessage demo (demoDjPrefix (lit "!")) ⟨7, []⟩ []).outcome =
        .panicked (.indexOutOfRange 0 0) ∧
      ¬ (lit "!" <+: ([] : GoString)) :=
  ⟨rfl, by decide⟩

/-! ## OnConnect -/

theorem appliedVolumes_append {T : Types} (a b : List (Event T)) :
    appliedVolumes (a ++ b) = appliedVolumes a ++ appliedVolumes b := by
  induction a with
  | nil => rfl
  | cons x t ih => cases x <;> simp [appliedVolumes, ih]

theorem OnConnect.moveToDefaultChannel_volumes {T : Types} (c : Collaborators T)
    (dj : mumbledj T) (w : T.World) :
    appliedVolumes (OnConnect.moveToDefaultChannel c dj w).2 = [] := by
  unfold OnConnect.moveToDefaultChannel
  split <;> rfl

theorem OnConnect.storeHomeDir_conf {T : Types} (c : Collaborators T) (dj : mumbledj T)
    (w : T.World) : (OnConnect.storeHomeDir c dj w).conf = dj.conf := by
  unfold OnConnect.storeHomeDir
  split <;> rfl

/-- The function `loadConfiguration` never calls `SetVolume`, and when it returns nil,
`dj.conf` is the configuration `gcfg.ReadFileInto` wrote. -/
theorem loadConfiguration_spec {T : Types} (c : Collaborators T) (dj dj2 : mumbledj T)
    (w : T.World) (err : Option GoError) (t : List (Event T))
    (h : loadConfiguration c dj w = (err, dj2, t)) :
    appliedVolumes t = [] ∧
      (err = none →
        c.ReadFileInto dj.conf (dj.homeDir ++ lit "/.mumbledj/config/mumbledj.gcfg") w =
          (none, dj2.conf)) := by
  unfold loadConfiguration at h
  dsimp only at h
  split at h
  · next conf hr =>
    cases h
    exact ⟨rfl, fun _ => hr⟩
  · next e conf hr =>
    cases h
    exact ⟨rfl, fun hh => by cases hh⟩

theorem OnConnect.setUpAudioStream_spec {T : Types} (c : Collaborators T) (dj : mumbledj T)
    (w : T.World) (t : List (Event T)) (ht : appliedVolumes t = []) :
    (OnConnect.setUpAudioStream c dj w t).dj.conf = dj.conf ∧
      appliedVolumes (OnConnect.setUpAudioStream c dj w t).trace =
        (match (OnConnect.setUpAudioStream c dj w t).outcome with
          | .returned => [dj.conf.Volume.DefaultVolume]
          | .panicked _ => []) := by
  unfold OnConnect.setUpAudioStream
  split <;> simp [appliedVolumes_append, appliedVolumes, ht]

/-- The volumes `OnConnect` applies, for either outcome. -/
theorem OnConnect_volumes {T : Types} (c : Collaborators T) (dj : mumbledj T)
    (e : T.ConnectEvent) (w : T.World) :
    appliedVolumes (OnConnect c dj e w).trace =
        (match (OnConnect c dj e w).outcome with
          | .returned => [(OnConnect c dj e w).dj.conf.Volume.DefaultVolume]
          | .panicked _ => []) ∧
      ((OnConnect c dj e w).outcome = .returned →
        ∃ path w1, c.ReadFileInto dj.conf path w1 = (none, (OnConnect c dj e w).dj.conf)) := by
  unfold OnConnect
  dsimp only
  split
  · next dj2 t3 hl =>
    have hs := loadConfiguration_spec c _ _ _ _ _ hl
    have ha := OnConnect.setUpAudioStream_spec c dj2 (OnConnect.moveToDefaultChannel c dj w).1
      ((OnConnect.moveToDefaultChannel c dj w).2 ++ [.UserCurrent] ++ t3 ++
        [.Stdout (lit "Configuration successfully loaded!\n")])
      (by simp [appliedVolumes_append, appliedVolumes, hs.1,
        OnConnect.moveToDefaultChannel_volumes])
    have hr := hs.2 rfl
    rw [OnConnect.storeHomeDir_conf] at hr
    refine ⟨?_, fun _ => ⟨_, _, ha.1 ▸ hr⟩⟩
    rw [ha.2, ha.1]
  · next err dj2 t3 hl =>
    have hs := loadConfiguration_spec c _ _ _ _ _ hl
    refine ⟨?_, fun hh => by cases hh⟩
    simp [appliedVolumes_append, appliedVolumes, hs.1, OnConnect.moveToDefaultChannel_volumes]

/-- C6, counterexample: the configuration file sets `DefaultVolume = 2`, `LowestVolume = 0`,
`HighestVolume = 1`. `OnConnect` returns having called `SetVolume(2)`, and 2 is not in
the range [0, 1]. -/
theorem OnConnect_volume_not_clamped :
    (OnConnect demo (demoDj none []) () []).outcome = .returned ∧
      appliedVolumes (OnConnect demo (demoDj none []) () []).trace = [(2 : ℚ)] ∧
      ((OnConnect demo (demoDj none []) () []).dj.conf.Volume.LowestVolume : ℚ) = 0 ∧
      ((OnConnect demo (demoDj none []) () []).dj.conf.Volume.HighestVolume : ℚ) = 1 ∧
      ¬ ((0 : ℚ) ≤ 2 ∧ (2 : ℚ) ≤ 1) :=
  ⟨rfl, rfl, rfl, rfl, by norm_num⟩

/-- C6, amended: when `OnConnect` returns, it has called `SetVolume` exactly once, with the
`DefaultVolume` of the configuration that `gcfg.ReadFileInto` has just written to `dj.conf`,
unchanged; so the applied volume is within `[LowestVolume, HighestVolume]` exactly when the
configured `DefaultVolume` is. -/
theorem OnConnect_applies_DefaultVolume {T : Types} (c : Collaborators T) (dj : mumbledj T)
    (e : T.ConnectEvent) (w : T.World)
    (h : (OnConnect c dj e w).outcome = .returned) :
    appliedVolumes (OnConnect c dj e w).trace =
        [(OnConnect c dj e w).dj.conf.Volume.DefaultVolume] ∧
      ∃ path w1, c.ReadFileInto dj.conf path w1 = (none, (OnConnect c dj e w).dj.conf) := by
  have hv := OnConnect_volumes c dj e w
  refine ⟨?_, hv.2 h⟩
  rw [hv.1, h]

/-- Witness of C6, amended: the configuration file sets `DefaultVolume = 2`. -/
theorem OnConnect_applies_DefaultVolume_witness :
    appliedVolumes (OnConnect demo (demoDj none []) () []).trace =
        [(OnConnect demo (demoDj none []) () []).dj.conf.Volume.DefaultVolume] ∧
      ∃ path w1, demo.ReadFileInto (demoDj none []).conf path w1 =
        (none, (OnConnect demo (demoDj none []) () []).dj.conf) :=
  OnConnect_applies_DefaultVolume demo (demoDj none []) () [] rfl

end MumbleDJ
